import Mathlib

/-!
Verification development for the dettrace tracing core (src/src/execution.cpp).

The C++ source is shallowly embedded: each member function of `execution`
becomes a Lean function over an explicit `execution` record; the kernel's
wait statuses are natural numbers decoded with the standard Linux wait
macros; the external world (the tracee processes, the registers, the
syscall handlers) is supplied as explicit inputs (lists of incoming wait
events, oracle records).  Fallible C++ code (`throw runtime_error`) becomes
`Except String`.  The embedding assumes the modern-kernel compilation
(`LINUX_VERSION_CODE >= KERNEL_VERSION(4,8,0)`), so the `isPreExit`
entry-stop drain branches are compiled out, exactly as on the kernels the
repository's own Dockerfile builds against.
-/

/-! ## Wait-status decoding

The standard Linux `<sys/wait.h>` macros, consumed by execution.cpp but
defined outside the repository.  A wait status is a nonnegative machine
integer; the macros inspect its low 16 bits. -/

/-- `WIFEXITED(status)`: `(status & 0x7f) == 0`. -/
def WIFEXITED (status : Nat) : Bool := status % 128 == 0

/-- `WIFSTOPPED(status)`: `(status & 0xff) == 0x7f`. -/
def WIFSTOPPED (status : Nat) : Bool := status % 256 == 127

/-- `WSTOPSIG(status)`: `(status >> 8) & 0xff`. -/
def WSTOPSIG (status : Nat) : Nat := (status / 256) % 256

/-- `WTERMSIG(status)`: `status & 0x7f`. -/
def WTERMSIG (status : Nat) : Nat := status % 128

/-- `WIFSIGNALED(status)`: glibc computes
`((signed char)(((status & 0x7f) + 1) >> 1)) > 0`, which is true exactly when
`status & 0x7f` lies in `[1, 126]` (0 is a normal exit, 0x7f a stop). -/
def WIFSIGNALED (status : Nat) : Bool :=
  1 ≤ status % 128 && status % 128 ≤ 126

/-- `SIGTRAP` on Linux. -/
def SIGTRAP : Nat := 5

def PTRACE_EVENT_FORK : Nat := 1
def PTRACE_EVENT_VFORK : Nat := 2
def PTRACE_EVENT_CLONE : Nat := 3
def PTRACE_EVENT_EXEC : Nat := 4
def PTRACE_EVENT_EXIT : Nat := 6
def PTRACE_EVENT_SECCOMP : Nat := 7
def PTRACE_EVENT_STOP : Nat := 128

/-- Modelled from the spec: `ptracer::isPtraceEvent` (ptracer.hpp is not under
src/).  Per spec §4.1, "ptrace event bits are carried in the high bits of the
status word": an event-stop status satisfies
`(status >> 8) == (SIGTRAP | (event << 8))`, the standard ptrace(2) encoding
(`event << 8` has no low bits, so the or is an addition). -/
def isPtraceEvent (status : Nat) (event : Nat) : Bool :=
  status / 256 == SIGTRAP + 256 * event

/-- The event tags of `enum class ptraceEvent` consumed by execution.cpp
(declared in execution.hpp, used member by member in the source). -/
inductive ptraceEvent where
  | exec
  | terminatedBySignal
  | exit
  | signal
  | syscall
  | fork
  | vfork
  | clone
  | seccomp
deriving DecidableEq, BEq, Repr

/-- The classification cascade of `execution::getNextEvent`
(execution.cpp lines 469-527), applied to the status `waitpid` returned.
Each test is taken verbatim from the source, in source order; the `throw`
branches become `Except.error` with the source's message. -/
def classifyWaitStatus (status : Nat) : Except String ptraceEvent :=
  if WIFEXITED status then Except.ok ptraceEvent.exit
  else if isPtraceEvent status PTRACE_EVENT_EXEC then Except.ok ptraceEvent.exec
  else if isPtraceEvent status PTRACE_EVENT_CLONE then Except.ok ptraceEvent.clone
  else if isPtraceEvent status PTRACE_EVENT_VFORK then Except.ok ptraceEvent.vfork
  else if isPtraceEvent status PTRACE_EVENT_FORK then Except.ok ptraceEvent.fork
  else if isPtraceEvent status PTRACE_EVENT_STOP then Except.error "Ptrace event stop.\n"
  else if isPtraceEvent status PTRACE_EVENT_EXIT then Except.error "Ptrace event exit.\n"
  else if isPtraceEvent status PTRACE_EVENT_SECCOMP then Except.ok ptraceEvent.seccomp
  else if WIFSTOPPED status && (WSTOPSIG status == (SIGTRAP ||| 0x80)) then
    Except.ok ptraceEvent.syscall
  else if WIFSTOPPED status then Except.ok ptraceEvent.signal
  else if WIFSIGNALED status then Except.ok ptraceEvent.terminatedBySignal
  else Except.error "Uknown event on dettrace::getNextEvent()"

/-! ## The spec's priority order, as its own definition

Spec §4.1 step 3 lists the classification as an ordered list of tests, the
first matching test deciding.  `specEventTests` transcribes that sentence;
`specClassify` takes the first match.  Comparing it with
`classifyWaitStatus` (built from the source's if-cascade) settles the
priority claim. -/

/-- The spec's ordered test list: "normal exit → exec event → clone event →
vfork event → fork event → (fatal: exit event or generic-stop event) →
seccomp event → syscall-trap stop (stop-signal equal to SIGTRAP with the
trap-with-syscall bit) → other signal-stop → killed-by-signal". -/
def specEventTests : List ((Nat → Bool) × Except String ptraceEvent) :=
  [ (fun s => WIFEXITED s, Except.ok ptraceEvent.exit),
    (fun s => isPtraceEvent s PTRACE_EVENT_EXEC, Except.ok ptraceEvent.exec),
    (fun s => isPtraceEvent s PTRACE_EVENT_CLONE, Except.ok ptraceEvent.clone),
    (fun s => isPtraceEvent s PTRACE_EVENT_VFORK, Except.ok ptraceEvent.vfork),
    (fun s => isPtraceEvent s PTRACE_EVENT_FORK, Except.ok ptraceEvent.fork),
    (fun s => isPtraceEvent s PTRACE_EVENT_STOP, Except.error "Ptrace event stop.\n"),
    (fun s => isPtraceEvent s PTRACE_EVENT_EXIT, Except.error "Ptrace event exit.\n"),
    (fun s => isPtraceEvent s PTRACE_EVENT_SECCOMP, Except.ok ptraceEvent.seccomp),
    (fun s => WIFSTOPPED s && (WSTOPSIG s == (SIGTRAP ||| 0x80)), Except.ok ptraceEvent.syscall),
    (fun s => WIFSTOPPED s, Except.ok ptraceEvent.signal),
    (fun s => WIFSIGNALED s, Except.ok ptraceEvent.terminatedBySignal) ]

/-- First-match semantics over an ordered test list: a status matching an
earlier test is never classified by a later one. -/
def firstMatching : List ((Nat → Bool) × Except String ptraceEvent) → Nat → Except String ptraceEvent
  | [], _ => Except.error "Uknown event on dettrace::getNextEvent()"
  | (t, r) :: rest, s => if t s then r else firstMatching rest s

/-- The spec's classification: the first matching test of `specEventTests`. -/
def specClassify (s : Nat) : Except String ptraceEvent :=
  firstMatching specEventTests s

/-! ## Syscall dispatcher

`execution::getSystemCall` (execution.cpp lines 338-434) switches on the
syscall number; every case constructs a handler object from
`(syscallNumber, syscallName)` and the default throws.  The handler catalog
is out of scope (spec §1), so a handler is embedded as its construction
arguments `(number, name)`; what the core observes of the switch is exactly
which numbers have a case and the default's error message.  The `SYS_*`
case labels are the Linux x86_64 numbers from `<sys/syscall.h>`. -/

def SYS_access : Int := 21
def SYS_alarm : Int := 37
def SYS_chdir : Int := 80
def SYS_chmod : Int := 90
def SYS_clock_gettime : Int := 228
def SYS_clone : Int := 56
def SYS_connect : Int := 42
def SYS_execve : Int := 59
def SYS_fstat : Int := 5
def SYS_newfstatat : Int := 262
def SYS_fstatfs : Int := 138
def SYS_futex : Int := 202
def SYS_getcwd : Int := 79
def SYS_getdents : Int := 78
def SYS_getrandom : Int := 318
def SYS_getrlimit : Int := 97
def SYS_getrusage : Int := 98
def SYS_gettimeofday : Int := 96
def SYS_ioctl : Int := 16
def SYS_nanosleep : Int := 35
def SYS_lstat : Int := 6
def SYS_open : Int := 2
def SYS_openat : Int := 257
def SYS_pipe : Int := 22
def SYS_pselect6 : Int := 270
def SYS_poll : Int := 7
def SYS_prlimit64 : Int := 302
def SYS_read : Int := 0
def SYS_readlink : Int := 89
def SYS_sendto : Int := 44
def SYS_select : Int := 23
def SYS_set_robust_list : Int := 273
def SYS_statfs : Int := 137
def SYS_stat : Int := 4
def SYS_sysinfo : Int := 99
def SYS_tgkill : Int := 234
def SYS_time : Int := 201
def SYS_uname : Int := 63
def SYS_unlink : Int := 87
def SYS_unlinkat : Int := 263
def SYS_utimensat : Int := 280
def SYS_vfork : Int := 58
def SYS_write : Int := 1
def SYS_writev : Int := 20

/-- The numbers carrying a `case` in the switch of `execution::getSystemCall`,
in source order. -/
def dispatchCases : List Int :=
  [ SYS_access, SYS_alarm, SYS_chdir, SYS_chmod, SYS_clock_gettime, SYS_clone,
    SYS_connect, SYS_execve, SYS_fstat, SYS_newfstatat, SYS_fstatfs, SYS_futex,
    SYS_getcwd, SYS_getdents, SYS_getrandom, SYS_getrlimit, SYS_getrusage,
    SYS_gettimeofday, SYS_ioctl, SYS_nanosleep, SYS_lstat, SYS_open, SYS_openat,
    SYS_pipe, SYS_pselect6, SYS_poll, SYS_prlimit64, SYS_read, SYS_readlink,
    SYS_sendto, SYS_select, SYS_set_robust_list, SYS_statfs, SYS_stat,
    SYS_sysinfo, SYS_tgkill, SYS_time, SYS_uname, SYS_unlink, SYS_unlinkat,
    SYS_utimensat, SYS_vfork, SYS_write, SYS_writev ]

/-- `execution::getSystemCall`: the switch yields a handler constructed from
`(syscallNumber, syscallName)` for every number with a case; the fall-through
default throws.  Error message verbatim from execution.cpp line 432. -/
def getSystemCall (syscallNumber : Int) (syscallName : String) :
    Except String (Int × String) :=
  if syscallNumber ∈ dispatchCases then Except.ok (syscallNumber, syscallName)
  else Except.error ("Missing case for system call: " ++ syscallName ++ " this is a bug!")

/-- Modelled from the spec: the syscall-number → name table
`systemCallMappings` (systemCallList.hpp, not under src/).  The table maps
every Linux x86_64 syscall number to its name; entries this development never
consults are abbreviated to `""` (their contents decide no claim). -/
def systemCallNames : List (Int × String) :=
  [ (0, "read"), (1, "write"), (2, "open"), (4, "stat"), (5, "fstat"),
    (6, "lstat"), (7, "poll"), (16, "ioctl"), (20, "writev"), (21, "access"),
    (22, "pipe"), (23, "select"), (35, "nanosleep"), (37, "alarm"),
    (39, "getpid"), (42, "connect"), (44, "sendto"), (56, "clone"),
    (57, "fork"), (58, "vfork"), (59, "execve"), (63, "uname"),
    (78, "getdents"), (79, "getcwd"), (80, "chdir"), (87, "unlink"),
    (89, "readlink"), (90, "chmod"), (96, "gettimeofday"), (97, "getrlimit"),
    (98, "getrusage"), (99, "sysinfo"), (137, "statfs"), (138, "fstatfs"),
    (201, "time"), (202, "futex"), (228, "clock_gettime"), (231, "exit_group"),
    (234, "tgkill"), (257, "openat"), (262, "newfstatat"), (263, "unlinkat"),
    (270, "pselect6"), (273, "set_robust_list"), (280, "utimensat"),
    (302, "prlimit64"), (318, "getrandom") ]

/-- Lookup in the modelled name table (`systemCallMappings[n]`). -/
def systemCallMappings (n : Int) : String :=
  match systemCallNames.find? (fun p => p.1 == n) with
  | some p => p.2
  | none => ""

/-- Modelled from the spec: `SYSTEM_CALL_COUNT` (systemCallList.hpp, not under
src/), the upper bound of the name table's index range.  Its exact value is
immaterial to the claims; it is at least the largest dispatched number. -/
def SYSTEM_CALL_COUNT : Int := 328

/-- The unknown-syscall-number guard of `execution::handlePreSystemCall`
(execution.cpp line 49): `syscallNum < 0 || syscallNum > SYSTEM_CALL_COUNT`. -/
def unknownSyscallGuard (syscallNum : Int) : Bool :=
  syscallNum < 0 || syscallNum > SYSTEM_CALL_COUNT

/-- The number-handling prefix of `execution::handlePreSystemCall`
(execution.cpp lines 45-51), in source order: first
`getSystemCall(syscallNum, systemCallMappings[syscallNum])` (line 46, the
dispatcher consult and the name-table lookup keyed by the number), only then
the range guard (line 49) with its error (line 50). -/
def syscallLookup (syscallNum : Int) : Except String (Int × String) :=
  match getSystemCall syscallNum (systemCallMappings syscallNum) with
  | Except.error msg => Except.error msg
  | Except.ok sc =>
    if unknownSyscallGuard syscallNum then
      Except.error ("Unkown system call number: " ++ toString syscallNum)
    else Except.ok sc

/-! ## Per-tracee State and the process registry

`state` (state.hpp) is not under src/; its fields are taken from spec §3.
The registry `states` is a `std::map<pid_t, state>` embedded as an
association list with the map's operations spelled out (`at`/lookup,
in-place field write, `erase`, `emplace` — which inserts only when the key
is absent). -/

/-- Modelled from the spec: the per-tracee `state` (state.hpp, not under
src/).  Spec §3 fields: logicalTime (monotone counter), signalToDeliver
("the signal number to inject on the next resume, or 0 for none" — a fresh
State has none), isPreExit (older kernels only), currentSyscall (the
dispatched handler, embedded as its `(number, name)` construction
arguments). -/
structure state where
  pid : Nat
  logicalTime : Nat := 0
  signalToDeliver : Int := 0
  isPreExit : Bool := false
  currentSyscall : Option (Int × String) := none
deriving DecidableEq, Repr

/-- `states.find` / `states.at` as a pure lookup (map keys are unique, so
first match is the match). -/
def lookupState (pid : Nat) : List (Nat × state) → Option state
  | [] => none
  | (k, st) :: rest => if k == pid then some st else lookupState pid rest

/-- Write through `states.at(pid)`: rewrite the entry at `pid` (no-op when
absent; the callers below check presence first, as `at` throws). -/
def updateState (pid : Nat) (f : state → state) : List (Nat × state) → List (Nat × state)
  | [] => []
  | (k, st) :: rest =>
    if k == pid then (k, f st) :: updateState pid f rest
    else (k, st) :: updateState pid f rest

/-- `states.erase(pid)`: drop the entry keyed `pid`. -/
def eraseState (pid : Nat) : List (Nat × state) → List (Nat × state)
  | [] => []
  | (k, st) :: rest =>
    if k == pid then eraseState pid rest else (k, st) :: eraseState pid rest

/-- `states.emplace(pid, st)`: insert only when the key is absent. -/
def emplaceState (pid : Nat) (st : state) (m : List (Nat × state)) :
    List (Nat × state) :=
  if (lookupState pid m).isSome then m else m ++ [(pid, st)]

/-- The supervisor's own state: the members of class `execution` that the
source reads and writes (log and tracer omitted: logging has no effect on
the claims, the tracer's reads are supplied as oracle inputs). -/
structure execution where
  states : List (Nat × state)
  processHier : List Nat
  nextPid : Nat
  traceesPid : Nat
  exitLoop : Bool := false
  debugLevel : Int := 0
deriving DecidableEq, Repr

/-- The constructor `execution::execution` (execution.cpp lines 13-26):
one State entry for the starting pid, empty ancestor stack, the starting
pid as first resume target. -/
def execution.init (startingPid : Nat) : execution :=
  { states := [(startingPid, { pid := startingPid })],
    processHier := [],
    nextPid := startingPid,
    traceesPid := startingPid }

/-- One resume issued to the kernel (`ptracer::doPtrace(PTRACE_CONT /
PTRACE_SYSCALL, pid, 0, signal)`).  `slotOwner` is model bookkeeping: the
pid whose `signalToDeliver` slot was read and cleared to produce `signal`
(execution.cpp lines 443-446 read and reset `states.at(nextPid)`). -/
structure resumeAction where
  pid : Nat
  syscallMode : Bool
  signal : Int
  slotOwner : Nat
deriving DecidableEq, Repr

/-- `execution::handleExit` (execution.cpp lines 28-42): with an empty
ancestor stack, set `exitLoop` and return (the exiting tracee's entry is
NOT erased); otherwise erase the exiting tracee's entry, and pop the stack
top into `nextPid`. -/
def handleExit (e : execution) : execution :=
  match e.processHier with
  | [] => { e with exitLoop := true }
  | parent :: rest =>
    { e with states := eraseState e.traceesPid e.states,
             nextPid := parent,
             processHier := rest }

/-- `execution::handleSignal` (execution.cpp lines 328-336): record the
intercepted signal in the stopping tracee's State
(`states.at(traceesPid).signalToDeliver = sigNum`; `at` throws when the pid
has no entry). -/
def handleSignal (e : execution) (sigNum : Int) : Except String execution :=
  match lookupState e.traceesPid e.states with
  | none => Except.error "states.at: out_of_range"
  | some _ => Except.ok
      { e with states :=
          updateState e.traceesPid (fun s => { s with signalToDeliver := sigNum }) e.states }

/-- `execution::getNextEvent` (execution.cpp lines 436-528).  Reads and
clears `states.at(nextPid).signalToDeliver`, resumes `currentPid` (mode
`PTRACE_SYSCALL` when `ptraceSystemcall`, else `PTRACE_CONT`) delivering
that signal, blocks in `waitpid(-1)` — embedded as taking the head of the
`incoming` event list (pid, raw status); an empty list is the failing wait —
stores the stopped pid into the member `traceesPid`, and classifies the
status.  Returns the classified event, the raw status, the new supervisor
state, the leftover incoming events and the resume that was issued. -/
def getNextEvent (e : execution) (incoming : List (Nat × Nat))
    (currentPid : Nat) (ptraceSystemcall : Bool) :
    Except String (ptraceEvent × Nat × execution × List (Nat × Nat) × resumeAction) :=
  match lookupState e.nextPid e.states with
  | none => Except.error "states.at: out_of_range"
  | some st =>
    let signalToDeliver := st.signalToDeliver
    let e1 : execution :=
      { e with states :=
          updateState e.nextPid (fun s => { s with signalToDeliver := 0 }) e.states }
    let act : resumeAction :=
      { pid := currentPid, syscallMode := ptraceSystemcall,
        signal := signalToDeliver, slotOwner := e.nextPid }
    match incoming with
    | [] => Except.error "waitpid failed:"
    | (pid, status) :: rest =>
      let e2 : execution := { e1 with traceesPid := pid }
      match classifyWaitStatus status with
      | Except.error msg => Except.error msg
      | Except.ok ev => Except.ok (ev, status, e2, rest, act)

/-! ## Fork reconciliation -/

/-- `execution::handleForkEvent` (execution.cpp lines 248-266): fetch the
new child pid from the tracer's event message (supplied as `eventMsg`),
push the parent (`traceesPid`) onto the ancestor stack, emplace a fresh
State for the child.  Returns the updated supervisor state and the child
pid. -/
def handleForkEvent (e : execution) (eventMsg : Nat) : execution × Nat :=
  let newChildPid := eventMsg
  let e1 : execution :=
    { e with processHier := e.traceesPid :: e.processHier,
             states := emplaceState newChildPid { pid := newChildPid } e.states }
  (e1, newChildPid)

/-- `execution::handleForkSignal` (execution.cpp lines 268-286):
`waitpid(-1)` on any tracee (head of `incoming`; empty list is the failing
wait), store the stopped pid into `traceesPid`, and require the status to
be a fork or vfork event-stop. -/
def handleForkSignal (e : execution) (incoming : List (Nat × Nat)) :
    Except String (execution × List (Nat × Nat)) :=
  match incoming with
  | [] => Except.error "waitpid failed:"
  | (pid, status) :: rest =>
    let e1 : execution := { e with traceesPid := pid }
    if !(isPtraceEvent status PTRACE_EVENT_FORK) &&
       !(isPtraceEvent status PTRACE_EVENT_VFORK) then
      Except.error "Expected fork or vfork event!\n"
    else Except.ok (e1, rest)

/-- `execution::handleFork` (execution.cpp lines 209-246), the fork
reconciler.  On a fork/vfork tag the parent's event came first:
`handleForkEvent`, then a blocking `waitpid(newChildPid)` for the child's
first stop (head of `incoming`; a pid mismatch is the source's fatal
error).  On any tag other than fork/vfork/signal: fatal.  On signal the
child's stop came first: `handleForkSignal` then `handleForkEvent`.  In
every successful case the child pid becomes `nextPid`. -/
def handleFork (e : execution) (event : ptraceEvent) (eventMsg : Nat)
    (incoming : List (Nat × Nat)) :
    Except String (execution × List (Nat × Nat)) :=
  if event == ptraceEvent.fork || event == ptraceEvent.vfork then
    let (e1, newChildPid) := handleForkEvent e eventMsg
    match incoming with
    | [] => Except.error "waitpid failed:"
    | (retPid, _status) :: rest =>
      if retPid != newChildPid then
        Except.error "wait call return pid does not match new child's pid."
      else Except.ok ({ e1 with nextPid := newChildPid }, rest)
  else
    if event != ptraceEvent.signal then
      Except.error "Expected signal after fork/vfork event!"
    else
      match handleForkSignal e incoming with
      | Except.error msg => Except.error msg
      | Except.ok (e1, rest) =>
        let (e2, newChildPid) := handleForkEvent e1 eventMsg
        Except.ok ({ e2 with nextPid := newChildPid }, rest)

/-! ## Pre-syscall hook, seccomp event, supervisor loop -/

/-- The tracer reads and the handler result one seccomp event consumes,
supplied as an oracle: the `PTRACE_GETEVENTMSG` payload (a uint16), the
syscall number read from the registers, the pre-hook's boolean result, and
the event message fetched if the syscall turns out to be a fork/vfork/clone
(the new child's pid). -/
structure seccompOracle where
  eventMsg : Nat
  regSyscallNum : Int
  preHookResult : Bool
  forkEventMsg : Nat
deriving DecidableEq, Repr

/-- `execution::handlePreSystemCall` (execution.cpp lines 44-101), modern
kernel.  `syscallLookup` embeds lines 45-51 (dispatcher consult before
range guard); the dispatched handler is stored in the tracee's
`currentSyscall`; the pre-hook result comes from the oracle.  For a
fork/vfork/clone syscall: drain the next event (`getNextEvent` with
`traceesPid` as resume target, no syscall-trap mode), hand it to
`handleFork`, and return false (no post-hook).  Otherwise return the
pre-hook's result, forced to true when `debugLevel >= 4`.  Also returns the
resumes issued on the way. -/
def handlePreSystemCall (e : execution) (orc : seccompOracle)
    (incoming : List (Nat × Nat)) :
    Except String (Bool × execution × List (Nat × Nat) × List resumeAction) :=
  match syscallLookup orc.regSyscallNum with
  | Except.error msg => Except.error msg
  | Except.ok sc =>
    let e1 : execution :=
      { e with states :=
          updateState e.traceesPid (fun s => { s with currentSyscall := some sc }) e.states }
    let callPostHook := orc.preHookResult
    if sc.2 == "fork" || sc.2 == "vfork" || sc.2 == "clone" then
      match getNextEvent e1 incoming e1.traceesPid false with
      | Except.error msg => Except.error msg
      | Except.ok (ev, _status, e2, rest, act) =>
        match handleFork e2 ev orc.forkEventMsg rest with
        | Except.error msg => Except.error msg
        | Except.ok (e3, rest2) => Except.ok (false, e3, rest2, [act])
    else
      Except.ok ((if 4 ≤ e1.debugLevel then true else callPostHook), e1, incoming, [])

/-- `execution::handleSeccomp` (execution.cpp lines 305-326): fetch the
syscall number seccomp put in the event message; `INT16_MAX` (32767) is the
no-filter-rule sentinel and is fatal, naming the syscall (by name) read
from the registers; otherwise run the pre-syscall hook on
`states.at(traceesPid)`. -/
def handleSeccomp (e : execution) (orc : seccompOracle)
    (incoming : List (Nat × Nat)) :
    Except String (Bool × execution × List (Nat × Nat) × List resumeAction) :=
  if orc.eventMsg == 32767 then
    Except.error ("No filter rule for system call: " ++ systemCallMappings orc.regSyscallNum)
  else
    match lookupState e.traceesPid e.states with
    | none => Except.error "states.at: out_of_range"
    | some _ => handlePreSystemCall e orc incoming

/-- The outcome of one iteration of the supervisor loop. -/
structure stepResult where
  exec : execution
  callPostHook : Bool
  incoming : List (Nat × Nat)
  oracles : List seccompOracle
  actions : List resumeAction
deriving DecidableEq, Repr

/-- One iteration of the `while(!exitLoop)` body of `execution::runProgram`
(execution.cpp lines 126-206), modern kernel: `getNextEvent` on
`nextPid`, then `nextPid = traceesPid`, then dispatch on the event tag.
seccomp events consume one oracle from `oracles`.  fork/vfork tags are
no-ops here (resolved at pre-syscall time); clone and exec are logged
no-ops; exited and killed-by-signal go to `handleExit`; a signal-stop is
recorded by `handleSignal(WSTOPSIG(status))`. -/
def supervisorStep (e : execution) (callPostHook : Bool)
    (incoming : List (Nat × Nat)) (oracles : List seccompOracle) :
    Except String stepResult :=
  match getNextEvent e incoming e.nextPid callPostHook with
  | Except.error msg => Except.error msg
  | Except.ok (ev, status, e1, rest, act) =>
    let e2 : execution := { e1 with nextPid := e1.traceesPid }
    match ev with
    | ptraceEvent.seccomp =>
      match oracles with
      | [] => Except.error "model: no seccomp oracle left"
      | orc :: orcsRest =>
        match handleSeccomp e2 orc rest with
        | Except.error msg => Except.error msg
        | Except.ok (cb, e3, rest2, acts) =>
          Except.ok { exec := e3, callPostHook := cb, incoming := rest2,
                      oracles := orcsRest, actions := act :: acts }
    | ptraceEvent.syscall =>
      Except.ok { exec := e2, callPostHook := false, incoming := rest,
                  oracles := oracles, actions := [act] }
    | ptraceEvent.terminatedBySignal =>
      Except.ok { exec := handleExit e2, callPostHook := callPostHook,
                  incoming := rest, oracles := oracles, actions := [act] }
    | ptraceEvent.exit =>
      Except.ok { exec := handleExit e2, callPostHook := callPostHook,
                  incoming := rest, oracles := oracles, actions := [act] }
    | ptraceEvent.fork =>
      Except.ok { exec := e2, callPostHook := callPostHook, incoming := rest,
                  oracles := oracles, actions := [act] }
    | ptraceEvent.vfork =>
      Except.ok { exec := e2, callPostHook := callPostHook, incoming := rest,
                  oracles := oracles, actions := [act] }
    | ptraceEvent.clone =>
      Except.ok { exec := e2, callPostHook := callPostHook, incoming := rest,
                  oracles := oracles, actions := [act] }
    | ptraceEvent.exec =>
      Except.ok { exec := e2, callPostHook := callPostHook, incoming := rest,
                  oracles := oracles, actions := [act] }
    | ptraceEvent.signal =>
      match handleSignal e2 (Int.ofNat (WSTOPSIG status)) with
      | Except.error msg => Except.error msg
      | Except.ok e3 =>
        Except.ok { exec := e3, callPostHook := callPostHook, incoming := rest,
                    oracles := oracles, actions := [act] }

/-- The `while(!exitLoop)` loop of `execution::runProgram`, with explicit
fuel (the C++ loop runs as long as events keep the flag unset).  Returns
the final supervisor state and every resume issued. -/
def runLoop : Nat → execution → Bool → List (Nat × Nat) → List seccompOracle →
    Except String (execution × List resumeAction)
  | 0, _, _, _, _ => Except.error "model: fuel exhausted"
  | Nat.succ fuel, e, callPostHook, incoming, oracles =>
    if e.exitLoop then Except.ok (e, [])
    else
      match supervisorStep e callPostHook incoming oracles with
      | Except.error msg => Except.error msg
      | Except.ok r =>
        match runLoop fuel r.exec r.callPostHook r.incoming r.oracles with
        | Except.error msg => Except.error msg
        | Except.ok (e', acts) => Except.ok (e', r.actions ++ acts)

/-- `execution::runProgram` from a fresh supervisor (constructor then loop,
`callPostHook` initially false). -/
def runProgram (startingPid : Nat) (fuel : Nat) (incoming : List (Nat × Nat))
    (oracles : List seccompOracle) :
    Except String (execution × List resumeAction) :=
  runLoop fuel (execution.init startingPid) false incoming oracles

/-- The supervisor state right after a successful wait in the loop body:
the resumed pid's pending-signal slot cleared (execution.cpp line 446),
`traceesPid` set to the pid `waitpid` returned (line 463), and
`nextPid = traceesPid` (line 129). -/
def afterWait (e : execution) (pid : Nat) : execution :=
  { e with states := updateState e.nextPid (fun s => { s with signalToDeliver := 0 }) e.states,
           traceesPid := pid, nextPid := pid }

/-! ## Registry lemmas -/

theorem lookupState_update_self (q : Nat) (f : state → state) (m : List (Nat × state)) :
    lookupState q (updateState q f m) = (lookupState q m).map f := by
  induction m with
  | nil => rfl
  | cons hd tl ih =>
    obtain ⟨k, st⟩ := hd
    cases hk : (k == q) <;> simp [lookupState, updateState, hk, ih]

theorem lookupState_update_other (p q : Nat) (f : state → state)
    (m : List (Nat × state)) (hpq : p ≠ q) :
    lookupState p (updateState q f m) = lookupState p m := by
  induction m with
  | nil => rfl
  | cons hd tl ih =>
    obtain ⟨k, st⟩ := hd
    cases hk : (k == q) <;> cases hkp : (k == p) <;>
      simp_all [lookupState, updateState]

theorem lookupState_append_of_some (p : Nat) (m l : List (Nat × state))
    (st : state) (h : lookupState p m = some st) :
    lookupState p (m ++ l) = some st := by
  induction m with
  | nil => simp [lookupState] at h
  | cons hd tl ih =>
    obtain ⟨k, s⟩ := hd
    cases hk : (k == p) <;> simp_all [lookupState]

theorem lookupState_emplace_of_mem (pid : Nat) (st0 : state)
    (m : List (Nat × state)) (p : Nat) (st : state)
    (h : lookupState p m = some st) :
    lookupState p (emplaceState pid st0 m) = some st := by
  unfold emplaceState
  split
  · exact h
  · exact lookupState_append_of_some p m [(pid, st0)] st h

/-! ## The claims -/

/-- Claim C1: `getNextEvent` classifies a wait status in exactly the spec's
priority order — normal exit, exec, clone, vfork, fork, the fatal
generic-stop and exit events, seccomp, syscall-trap stop (stop-signal equal
to SIGTRAP with the trap-with-syscall bit), other signal-stop,
killed-by-signal — and a status matching an earlier test is never
classified by a later one: the source's cascade equals the first-match
semantics of the spec's ordered test list, on every status. -/
theorem classifyWaitStatus_eq_specClassify :
    ∀ status : Nat, classifyWaitStatus status = specClassify status :=
  fun _ => rfl

/-- Claim C3 (code bug): the claim requires the range check to fail BEFORE
the dispatcher is asked and before any lookup keyed by the number, but
execution.cpp line 46 consults `systemCallMappings[syscallNum]` and
`getSystemCall` first and only then (line 49) checks the range.  At the
out-of-range number 1000 the produced failure is the dispatcher's
missing-case error — with the looked-up (empty) table name in it — and is
not the "Unkown system call number" range error, even though the range
guard holds at 1000. -/
theorem syscallLookup_range_check_after_dispatch :
    syscallLookup 1000 =
      Except.error ("Missing case for system call: " ++ systemCallMappings 1000 ++ " this is a bug!")
    ∧ unknownSyscallGuard 1000 = true
    ∧ syscallLookup 1000 ≠ Except.error ("Unkown system call number: " ++ toString (1000 : Int)) := by
  refine ⟨rfl, rfl, fun h => ?_⟩
  rw [show syscallLookup 1000 =
        Except.error "Missing case for system call:  this is a bug!" from rfl] at h
  injection h with h2
  exact absurd h2 (by decide)

/-- Claim C8 counterexample: syscall number 39 (`getpid`) has no case in
the dispatcher's table; the fatal message is "Missing case for system
call: getpid this is a bug!", and the decimal digits of the number 39
occur nowhere in it — the message does not name the syscall number. -/
theorem missing_case_message_counterexample :
    syscallLookup 39 = Except.error "Missing case for system call: getpid this is a bug!"
    ∧ ¬ ("39".toList <:+: "Missing case for system call: getpid this is a bug!".toList) :=
  ⟨rfl, by decide⟩

/-- Claim C8 (amended): for every syscall number outside the dispatcher's
table the core raises a fatal configuration failure whose error message
names the syscall by its table NAME (the dispatcher default's message),
not by its number. -/
theorem missing_case_message_names_syscall_name :
    ∀ n : Int, n ∉ dispatchCases →
      syscallLookup n =
        Except.error ("Missing case for system call: " ++ systemCallMappings n ++ " this is a bug!") := by
  intro n hn
  unfold syscallLookup getSystemCall
  rw [if_neg hn]

/-- Witness for C8's amended theorem at the concrete number 39. -/
theorem missing_case_message_names_syscall_name_witness :
    syscallLookup 39 =
      Except.error ("Missing case for system call: " ++ systemCallMappings 39 ++ " this is a bug!") :=
  missing_case_message_names_syscall_name 39 (by decide)

/-- Claim C10: the unknown-syscall-number guard of `handlePreSystemCall`
fires only for numbers strictly below 0 or strictly above
SYSTEM_CALL_COUNT; the boundary value SYSTEM_CALL_COUNT itself passes the
check (the guard is false there) and reaches the dispatcher and the
syscall-name table lookup — at the boundary the outcome is the
dispatcher's message built from the name-table entry, not the range
error. -/
theorem unknownSyscallGuard_boundary :
    unknownSyscallGuard SYSTEM_CALL_COUNT = false
    ∧ syscallLookup SYSTEM_CALL_COUNT =
        Except.error ("Missing case for system call: "
          ++ systemCallMappings SYSTEM_CALL_COUNT ++ " this is a bug!")
    ∧ unknownSyscallGuard (SYSTEM_CALL_COUNT + 1) = true
    ∧ unknownSyscallGuard (-1) = true
    ∧ ∀ n : Int, 0 ≤ n → n ≤ SYSTEM_CALL_COUNT → unknownSyscallGuard n = false := by
  refine ⟨rfl, rfl, rfl, rfl, fun n h0 h1 => ?_⟩
  simp only [SYSTEM_CALL_COUNT] at h1
  simp only [unknownSyscallGuard, SYSTEM_CALL_COUNT, Bool.or_eq_false_iff,
    decide_eq_false_iff_not, not_lt]
  omega

/-- Witness for C10 at the concrete in-range number 0. -/
theorem unknownSyscallGuard_boundary_witness :
    unknownSyscallGuard 0 = false :=
  unknownSyscallGuard_boundary.2.2.2.2 0 (by decide) (by decide)

/-- Claim C2 counterexample: a single tracee whose run is one normal-exit
event (raw status 1792 = exit code 7 in bits 8-15): the supervisor leaves
its loop (`exitLoop` true) with the registry still holding 1 entry, not 0 —
`handleExit` with an empty ancestor stack erases nothing, so "the registry
is empty iff the supervisor has exited its loop" fails, as does the
"1 then 0" size trace. -/
theorem registry_size_counterexample :
    (runProgram 10 3 [(10, 1792)] []).map
      (fun p => (p.1.exitLoop, p.1.states.length)) = Except.ok (true, 1) := rfl

/-- Claim C2 (amended): the registry is never empty; `handleExit` on an
empty ancestor stack only sets the termination flag and leaves the
registry untouched, so the supervisor exits its loop with the final
tracee's entry still present.  For a single tracee whose only event is its
exit, the registry size over the run is 1 and still 1 when the supervisor
returns. -/
theorem registry_nonempty_on_exit :
    (∀ e : execution, e.processHier = [] →
        (handleExit e).states = e.states ∧ (handleExit e).exitLoop = true)
    ∧ (execution.init 10).states.length = 1
    ∧ (runProgram 10 3 [(10, 1792)] []).map
        (fun p => (p.1.exitLoop, p.1.states.length)) = Except.ok (true, 1) := by
  refine ⟨fun e h => ?_, rfl, rfl⟩
  unfold handleExit
  rw [h]
  exact ⟨rfl, rfl⟩

/-- Witness for C2's amended theorem at a concrete supervisor state. -/
theorem registry_nonempty_on_exit_witness :
    (handleExit (execution.init 7)).states = (execution.init 7).states
    ∧ (handleExit (execution.init 7)).exitLoop = true :=
  registry_nonempty_on_exit.1 (execution.init 7) rfl

/-- Claim C7: on a termination event (`exit` or `terminatedBySignal`, both
routed to `handleExit` by the loop): with an empty ancestor stack
`handleExit` sets the termination flag (and the loop then returns
immediately); otherwise it removes the exiting tracee's entry from the
registry, pops the stack top, and makes the popped tracee the next resume
target. -/
theorem handleExit_spec :
    (∀ e : execution, e.processHier = [] → handleExit e = { e with exitLoop := true })
    ∧ (∀ (e : execution) (p : Nat) (rest : List Nat), e.processHier = p :: rest →
        handleExit e =
          { e with states := eraseState e.traceesPid e.states,
                   nextPid := p, processHier := rest })
    ∧ (∀ (e : execution) (callPostHook : Bool) (incoming : List (Nat × Nat))
          (oracles : List seccompOracle) (fuel : Nat),
        e.exitLoop = true →
        runLoop (fuel + 1) e callPostHook incoming oracles = Except.ok (e, []))
    ∧ (∀ (e : execution) (callPostHook : Bool) (pid status : Nat)
          (incoming : List (Nat × Nat)) (oracles : List seccompOracle) (st : state),
        lookupState e.nextPid e.states = some st →
        classifyWaitStatus status = Except.ok ptraceEvent.exit →
        supervisorStep e callPostHook ((pid, status) :: incoming) oracles =
          Except.ok { exec := handleExit (afterWait e pid),
                      callPostHook := callPostHook, incoming := incoming,
                      oracles := oracles,
                      actions := [{ pid := e.nextPid, syscallMode := callPostHook,
                                    signal := st.signalToDeliver, slotOwner := e.nextPid }] })
    ∧ (∀ (e : execution) (callPostHook : Bool) (pid status : Nat)
          (incoming : List (Nat × Nat)) (oracles : List seccompOracle) (st : state),
        lookupState e.nextPid e.states = some st →
        classifyWaitStatus status = Except.ok ptraceEvent.terminatedBySignal →
        supervisorStep e callPostHook ((pid, status) :: incoming) oracles =
          Except.ok { exec := handleExit (afterWait e pid),
                      callPostHook := callPostHook, incoming := incoming,
                      oracles := oracles,
                      actions := [{ pid := e.nextPid, syscallMode := callPostHook,
                                    signal := st.signalToDeliver, slotOwner := e.nextPid }] }) := by
  refine ⟨fun e h => ?_, fun e p rest h => ?_, fun e cb inc orcs fuel h => ?_,
    fun e cb pid status inc orcs st hl hc => ?_, fun e cb pid status inc orcs st hl hc => ?_⟩
  · unfold handleExit; rw [h]
  · unfold handleExit; rw [h]
  · simp [runLoop, h]
  · unfold supervisorStep getNextEvent
    rw [hl]
    dsimp only
    rw [hc]
    rfl
  · unfold supervisorStep getNextEvent
    rw [hl]
    dsimp only
    rw [hc]
    rfl

/-- Witness for C7 at a concrete two-tracee state: pid 3 exits, its entry
is erased, and the popped ancestor 8 becomes the resume target. -/
theorem handleExit_spec_witness :
    handleExit { states := [(3, { pid := 3 }), (8, { pid := 8 })],
                 processHier := [8], nextPid := 3, traceesPid := 3 } =
      { states := [(8, { pid := 8 })], processHier := [], nextPid := 8, traceesPid := 3 } := by
  have h := handleExit_spec.2.1
    { states := [(3, { pid := 3 }), (8, { pid := 8 })],
      processHier := [8], nextPid := 3, traceesPid := 3 } 8 [] rfl
  simpa using h

/-- Claim C4: after every fork/vfork/clone the reconciler resolves, the new
child's id (the ptrace event message) becomes the resume target `nextPid`,
so the child is the next tracee the supervisor advances — in both race
orders (the reconciler sets `nextPid = newChildPid` on every successful
path). -/
theorem handleFork_child_is_resume_target :
    ∀ (e : execution) (ev : ptraceEvent) (eventMsg : Nat)
      (incoming : List (Nat × Nat)) (e' : execution) (rest : List (Nat × Nat)),
      handleFork e ev eventMsg incoming = Except.ok (e', rest) →
      e'.nextPid = eventMsg := by
  intro e ev eventMsg incoming e' rest h
  unfold handleFork handleForkSignal handleForkEvent at h
  split at h
  · match incoming with
    | [] => exact absurd h (by simp)
    | (retPid, status) :: tl =>
      dsimp only at h
      split at h
      · exact absurd h (by simp)
      · simp only [Except.ok.injEq, Prod.mk.injEq] at h
        obtain ⟨he, _⟩ := h
        rw [← he]
  · split at h
    · exact absurd h (by simp)
    · match incoming with
      | [] => exact absurd h (by simp)
      | (pid, status) :: tl =>
        dsimp only at h
        split at h
        · exact absurd h (by simp)
        · simp only [Except.ok.injEq, Prod.mk.injEq] at h
          obtain ⟨he, _⟩ := h
          rw [← he]

/-- Witness for C4: parent 10, fork event first, child 11 stops; the child
11 is the resume target. -/
theorem handleFork_child_is_resume_target_witness :
    ({ states := [(10, { pid := 10 }), (11, { pid := 11 })], processHier := [10],
       nextPid := 11, traceesPid := 10 } : execution).nextPid = 11 :=
  handleFork_child_is_resume_target (execution.init 10) ptraceEvent.fork 11
    [(11, 127)] _ [] rfl

/-- Claim C6: branch-by-branch behavior of the fork reconciler.  On a fork
or vfork tag it fetches the child id from the event message, pushes the
parent on the ancestor stack, inserts a fresh State for the child, then
block-waits for the child's stop (a pid mismatch, or an exhausted wait, is
fatal).  On any tag other than fork, vfork, or signal-stop it fails
fatally.  On the signal-first tag it waits on any tracee, fails fatally
unless that next event is a fork/vfork event-stop, and then creates the
child State the same way (that waited pid, the parent, is pushed). -/
theorem handleFork_race_resolution :
    (∀ (e : execution) (eventMsg retPid status : Nat) (rest : List (Nat × Nat)),
      handleFork e ptraceEvent.fork eventMsg ((retPid, status) :: rest) =
        if retPid != eventMsg then
          Except.error "wait call return pid does not match new child's pid."
        else
          Except.ok
            ({ e with
                processHier := e.traceesPid :: e.processHier,
                states := emplaceState eventMsg { pid := eventMsg } e.states,
                nextPid := eventMsg },
              rest))
    ∧ (∀ (e : execution) (eventMsg retPid status : Nat) (rest : List (Nat × Nat)),
      handleFork e ptraceEvent.vfork eventMsg ((retPid, status) :: rest) =
        if retPid != eventMsg then
          Except.error "wait call return pid does not match new child's pid."
        else
          Except.ok
            ({ e with
                processHier := e.traceesPid :: e.processHier,
                states := emplaceState eventMsg { pid := eventMsg } e.states,
                nextPid := eventMsg },
              rest))
    ∧ (∀ (e : execution) (eventMsg : Nat),
        handleFork e ptraceEvent.fork eventMsg [] = Except.error "waitpid failed:")
    ∧ (∀ (e : execution) (eventMsg : Nat),
        handleFork e ptraceEvent.vfork eventMsg [] = Except.error "waitpid failed:")
    ∧ (∀ (e : execution) (eventMsg : Nat) (incoming : List (Nat × Nat)),
        handleFork e ptraceEvent.clone eventMsg incoming =
          Except.error "Expected signal after fork/vfork event!")
    ∧ (∀ (e : execution) (eventMsg : Nat) (incoming : List (Nat × Nat)),
        handleFork e ptraceEvent.exec eventMsg incoming =
          Except.error "Expected signal after fork/vfork event!")
    ∧ (∀ (e : execution) (eventMsg : Nat) (incoming : List (Nat × Nat)),
        handleFork e ptraceEvent.seccomp eventMsg incoming =
          Except.error "Expected signal after fork/vfork event!")
    ∧ (∀ (e : execution) (eventMsg : Nat) (incoming : List (Nat × Nat)),
        handleFork e ptraceEvent.syscall eventMsg incoming =
          Except.error "Expected signal after fork/vfork event!")
    ∧ (∀ (e : execution) (eventMsg : Nat) (incoming : List (Nat × Nat)),
        handleFork e ptraceEvent.exit eventMsg incoming =
          Except.error "Expected signal after fork/vfork event!")
    ∧ (∀ (e : execution) (eventMsg : Nat) (incoming : List (Nat × Nat)),
        handleFork e ptraceEvent.terminatedBySignal eventMsg incoming =
          Except.error "Expected signal after fork/vfork event!")
    ∧ (∀ (e : execution) (eventMsg pid status : Nat) (rest : List (Nat × Nat)),
      handleFork e ptraceEvent.signal eventMsg ((pid, status) :: rest) =
        if !(isPtraceEvent status PTRACE_EVENT_FORK) &&
           !(isPtraceEvent status PTRACE_EVENT_VFORK) then
          Except.error "Expected fork or vfork event!\n"
        else
          Except.ok
            ({ e with
                traceesPid := pid,
                processHier := pid :: e.processHier,
                states := emplaceState eventMsg { pid := eventMsg } e.states,
                nextPid := eventMsg },
              rest))
    ∧ (∀ (e : execution) (eventMsg : Nat),
        handleFork e ptraceEvent.signal eventMsg [] = Except.error "waitpid failed:") := by
  refine ⟨fun e m r s rest => rfl, fun e m r s rest => rfl, fun e m => rfl, fun e m => rfl,
    fun e m inc => rfl, fun e m inc => rfl, fun e m inc => rfl, fun e m inc => rfl,
    fun e m inc => rfl, fun e m inc => rfl, fun e m p s rest => ?_, fun e m => rfl⟩
  have h1 : (ptraceEvent.signal == ptraceEvent.fork) = false := rfl
  have h2 : (ptraceEvent.signal == ptraceEvent.vfork) = false := rfl
  have h3 : (ptraceEvent.signal != ptraceEvent.signal) = false := rfl
  cases hc : (!(isPtraceEvent s PTRACE_EVENT_FORK) && !(isPtraceEvent s PTRACE_EVENT_VFORK)) <;>
    simp [handleFork, handleForkSignal, handleForkEvent, h1, h2, h3, hc]

/-- Claim C9: fork reconciliation never writes any tracee's
`signalToDeliver`: on every successful path the registry changes exactly by
emplacing the child's fresh State (whose pending-signal slot is 0), every
pre-existing entry — its pending signal included — surviving bit for bit;
in particular the child's initial signal-stop consumed during reconciliation
is never recorded for later injection. -/
theorem handleFork_frame_no_signal_write :
    ∀ (e : execution) (ev : ptraceEvent) (eventMsg : Nat)
      (incoming : List (Nat × Nat)) (e' : execution) (rest : List (Nat × Nat)),
      handleFork e ev eventMsg incoming = Except.ok (e', rest) →
      e'.states = emplaceState eventMsg { pid := eventMsg } e.states
      ∧ ({ pid := eventMsg } : state).signalToDeliver = 0
      ∧ ∀ (p : Nat) (st : state), lookupState p e.states = some st →
          lookupState p e'.states = some st := by
  intro e ev eventMsg incoming e' rest h
  have hstates : e'.states = emplaceState eventMsg { pid := eventMsg } e.states := by
    unfold handleFork handleForkSignal handleForkEvent at h
    split at h
    · match incoming with
      | [] => exact absurd h (by simp)
      | (retPid, status) :: tl =>
        dsimp only at h
        split at h
        · exact absurd h (by simp)
        · simp only [Except.ok.injEq, Prod.mk.injEq] at h
          obtain ⟨he, _⟩ := h
          rw [← he]
    · split at h
      · exact absurd h (by simp)
      · match incoming with
        | [] => exact absurd h (by simp)
        | (pid, status) :: tl =>
          dsimp only at h
          cases hc : (!(isPtraceEvent status PTRACE_EVENT_FORK) &&
              !(isPtraceEvent status PTRACE_EVENT_VFORK)) with
          | true =>
            rw [hc] at h
            simp at h
          | false =>
            rw [hc] at h
            simp only [Bool.false_eq_true, if_false, Except.ok.injEq, Prod.mk.injEq] at h
            obtain ⟨he, _⟩ := h
            rw [← he]
  refine ⟨hstates, rfl, fun p st hp => ?_⟩
  rw [hstates]
  exact lookupState_emplace_of_mem eventMsg { pid := eventMsg } e.states p st hp

/-- Witness for C9: parent 12, child 13; the resulting registry is exactly
the old one with the fresh (pending-signal-free) entry for 13 appended. -/
theorem handleFork_frame_no_signal_write_witness :
    ({ states := [(12, { pid := 12 }), (13, { pid := 13 })], processHier := [12],
       nextPid := 13, traceesPid := 12 } : execution).states =
      emplaceState 13 { pid := 13 } (execution.init 12).states :=
  (handleFork_frame_no_signal_write (execution.init 12) ptraceEvent.fork 13
    [(13, 127)] _ [] rfl).1

/-! ## Signal-deferral lemmas -/

/-- Inversion of a successful `getNextEvent`: the resume is of `currentPid`
in the requested mode; the injected signal is read from `nextPid`'s slot,
which the call clears; the stopped pid and classified tag come from the
head incoming event. -/
theorem getNextEvent_ok_inv (e : execution) (incoming : List (Nat × Nat))
    (currentPid : Nat) (mode : Bool) (ev : ptraceEvent) (status : Nat)
    (e' : execution) (rest : List (Nat × Nat)) (act : resumeAction)
    (h : getNextEvent e incoming currentPid mode = Except.ok (ev, status, e', rest, act)) :
    act.pid = currentPid ∧ act.slotOwner = e.nextPid ∧ act.syscallMode = mode
    ∧ (∃ st : state, lookupState e.nextPid e.states = some st ∧ act.signal = st.signalToDeliver)
    ∧ e'.states = updateState e.nextPid (fun s => { s with signalToDeliver := 0 }) e.states
    ∧ e'.nextPid = e.nextPid ∧ e'.processHier = e.processHier
    ∧ ∃ (p s : Nat) (inc' : List (Nat × Nat)), incoming = (p, s) :: inc'
        ∧ e'.traceesPid = p ∧ rest = inc' ∧ status = s
        ∧ classifyWaitStatus s = Except.ok ev := by
  unfold getNextEvent at h
  cases hl : lookupState e.nextPid e.states with
  | none => rw [hl] at h; exact absurd h (by simp)
  | some st =>
    rw [hl] at h
    dsimp only at h
    match hinc : incoming with
    | [] => exact absurd h (by simp)
    | (p, s) :: tl =>
      dsimp only at h
      cases hc : classifyWaitStatus s with
      | error msg => rw [hc] at h; exact absurd h (by simp)
      | ok ev0 =>
        rw [hc] at h
        simp only [Except.ok.injEq, Prod.mk.injEq] at h
        obtain ⟨hev, hstatus, he, hrest, hact⟩ := h
        subst hev hstatus he hrest
        rw [← hact]
        exact ⟨rfl, rfl, rfl, ⟨st, rfl, rfl⟩, rfl, rfl, rfl, p, s, tl, rfl, rfl, rfl, rfl, hc⟩

/-- The resumes issued inside `handlePreSystemCall` read the slot of the
tracee they resume, provided `nextPid = traceesPid` on entry — which the
loop establishes before any seccomp event is dispatched. -/
theorem handlePreSystemCall_actions_own (e : execution) (orc : seccompOracle)
    (incoming : List (Nat × Nat)) (cb : Bool) (e' : execution)
    (inc' : List (Nat × Nat)) (acts : List resumeAction)
    (hnt : e.nextPid = e.traceesPid)
    (h : handlePreSystemCall e orc incoming = Except.ok (cb, e', inc', acts)) :
    ∀ a ∈ acts, a.slotOwner = a.pid := by
  unfold handlePreSystemCall at h
  cases hd : syscallLookup orc.regSyscallNum with
  | error msg => rw [hd] at h; exact absurd h (by simp)
  | ok sc =>
    rw [hd] at h
    dsimp only at h
    split at h
    · cases hg : getNextEvent
          { e with states :=
              updateState e.traceesPid (fun s => { s with currentSyscall := some sc }) e.states }
          incoming e.traceesPid false with
      | error msg => rw [hg] at h; exact absurd h (by simp)
      | ok tup =>
        obtain ⟨ev, status, e2, rest, act⟩ := tup
        rw [hg] at h
        dsimp only at h
        cases hf : handleFork e2 ev orc.forkEventMsg rest with
        | error msg => rw [hf] at h; exact absurd h (by simp)
        | ok pr =>
          obtain ⟨e3, rest2⟩ := pr
          rw [hf] at h
          simp only [Except.ok.injEq, Prod.mk.injEq] at h
          obtain ⟨-, -, -, hacts⟩ := h
          subst hacts
          intro a ha
          have hinv := getNextEvent_ok_inv _ _ _ _ _ _ _ _ _ hg
          obtain ⟨hpid, hown, -⟩ := hinv
          simp only [List.mem_singleton] at ha
          subst ha
          rw [hpid, hown]
          exact hnt
    · simp only [Except.ok.injEq, Prod.mk.injEq] at h
      obtain ⟨-, -, -, hacts⟩ := h
      subst hacts
      intro a ha
      exact absurd ha (by simp)

/-- As `handlePreSystemCall_actions_own`, lifted over `handleSeccomp`. -/
theorem handleSeccomp_actions_own (e : execution) (orc : seccompOracle)
    (incoming : List (Nat × Nat)) (cb : Bool) (e' : execution)
    (inc' : List (Nat × Nat)) (acts : List resumeAction)
    (hnt : e.nextPid = e.traceesPid)
    (h : handleSeccomp e orc incoming = Except.ok (cb, e', inc', acts)) :
    ∀ a ∈ acts, a.slotOwner = a.pid := by
  unfold handleSeccomp at h
  split at h
  · exact absurd h (by simp)
  · cases hl : lookupState e.traceesPid e.states with
    | none => rw [hl] at h; exact absurd h (by simp)
    | some st =>
      rw [hl] at h
      exact handlePreSystemCall_actions_own e orc incoming cb e' inc' acts hnt h

/-- Every resume a successful supervisor iteration issues injects the
signal read (and cleared) from the resumed tracee's own slot. -/
theorem supervisorStep_actions_own (e : execution) (callPostHook : Bool)
    (incoming : List (Nat × Nat)) (oracles : List seccompOracle) (r : stepResult)
    (h : supervisorStep e callPostHook incoming oracles = Except.ok r) :
    ∀ a ∈ r.actions, a.slotOwner = a.pid := by
  unfold supervisorStep at h
  cases hg : getNextEvent e incoming e.nextPid callPostHook with
  | error msg => rw [hg] at h; exact absurd h (by simp)
  | ok tup =>
    obtain ⟨ev, status, e1, rest, act⟩ := tup
    rw [hg] at h
    dsimp only at h
    have hinv := getNextEvent_ok_inv _ _ _ _ _ _ _ _ _ hg
    obtain ⟨hpid, hown, -⟩ := hinv
    have hact : act.slotOwner = act.pid := by rw [hpid, hown]
    have hnt : ({ e1 with nextPid := e1.traceesPid } : execution).nextPid =
        ({ e1 with nextPid := e1.traceesPid } : execution).traceesPid := rfl
    cases ev with
    | seccomp =>
      dsimp only at h
      cases oracles with
      | nil => exact absurd h (by simp)
      | cons orc orcsRest =>
        dsimp only at h
        cases hs : handleSeccomp { e1 with nextPid := e1.traceesPid } orc rest with
        | error msg => rw [hs] at h; exact absurd h (by simp)
        | ok tup2 =>
          obtain ⟨cb2, e3, rest2, acts2⟩ := tup2
          rw [hs] at h
          simp only [Except.ok.injEq] at h
          subst h
          intro a ha
          simp only [List.mem_cons] at ha
          rcases ha with ha | ha
          · subst ha; exact hact
          · exact handleSeccomp_actions_own _ _ _ _ _ _ _ hnt hs a ha
    | syscall =>
      dsimp only at h
      simp only [Except.ok.injEq] at h
      subst h
      intro a ha
      simp only [List.mem_singleton] at ha
      subst ha; exact hact
    | terminatedBySignal =>
      dsimp only at h
      simp only [Except.ok.injEq] at h
      subst h
      intro a ha
      simp only [List.mem_singleton] at ha
      subst ha; exact hact
    | exit =>
      dsimp only at h
      simp only [Except.ok.injEq] at h
      subst h
      intro a ha
      simp only [List.mem_singleton] at ha
      subst ha; exact hact
    | fork =>
      dsimp only at h
      simp only [Except.ok.injEq] at h
      subst h
      intro a ha
      simp only [List.mem_singleton] at ha
      subst ha; exact hact
    | vfork =>
      dsimp only at h
      simp only [Except.ok.injEq] at h
      subst h
      intro a ha
      simp only [List.mem_singleton] at ha
      subst ha; exact hact
    | clone =>
      dsimp only at h
      simp only [Except.ok.injEq] at h
      subst h
      intro a ha
      simp only [List.mem_singleton] at ha
      subst ha; exact hact
    | exec =>
      dsimp only at h
      simp only [Except.ok.injEq] at h
      subst h
      intro a ha
      simp only [List.mem_singleton] at ha
      subst ha; exact hact
    | signal =>
      dsimp only at h
      cases hsg : handleSignal { e1 with nextPid := e1.traceesPid }
          (Int.ofNat (WSTOPSIG status)) with
      | error msg => rw [hsg] at h; exact absurd h (by simp)
      | ok e3 =>
        rw [hsg] at h
        simp only [Except.ok.injEq] at h
        subst h
        intro a ha
        simp only [List.mem_singleton] at ha
        subst ha; exact hact

/-- Claim C5: an intercepted signal-stop records the signal number in the
stopping tracee's State, overwriting whatever the one-signal slot held and
touching no other tracee; a resume reads the pending signal of the resumed
tracee's own slot and that same resume clears the slot, leaving every
other tracee's slot untouched; and every resume a supervisor iteration
issues is of the tracee whose slot was read — a signal is never injected
on a resume of a different tracee. -/
theorem signal_deferred_delivery :
    (∀ (e : execution) (sig : Int) (e' : execution) (st : state),
        handleSignal e sig = Except.ok e' →
        lookupState e.traceesPid e.states = some st →
        lookupState e.traceesPid e'.states = some { st with signalToDeliver := sig }
        ∧ ∀ p : Nat, p ≠ e.traceesPid → lookupState p e'.states = lookupState p e.states)
    ∧ (∀ (e : execution) (incoming : List (Nat × Nat)) (currentPid : Nat)
          (mode : Bool) (ev : ptraceEvent) (status : Nat) (e' : execution)
          (rest : List (Nat × Nat)) (act : resumeAction),
        getNextEvent e incoming currentPid mode = Except.ok (ev, status, e', rest, act) →
        act.pid = currentPid
        ∧ act.slotOwner = e.nextPid
        ∧ (∃ st : state, lookupState e.nextPid e.states = some st
            ∧ act.signal = st.signalToDeliver
            ∧ lookupState e.nextPid e'.states = some { st with signalToDeliver := 0 })
        ∧ ∀ p : Nat, p ≠ e.nextPid → lookupState p e'.states = lookupState p e.states)
    ∧ (∀ (e : execution) (callPostHook : Bool) (incoming : List (Nat × Nat))
          (oracles : List seccompOracle) (r : stepResult),
        supervisorStep e callPostHook incoming oracles = Except.ok r →
        ∀ a ∈ r.actions, a.slotOwner = a.pid) := by
  refine ⟨fun e sig e' st hok hl => ?_, fun e inc cur mode ev status e' rest act h => ?_,
    supervisorStep_actions_own⟩
  · unfold handleSignal at hok
    rw [hl] at hok
    simp only [Except.ok.injEq] at hok
    subst hok
    constructor
    · dsimp only
      rw [lookupState_update_self]
      rw [hl]
      rfl
    · intro p hp
      dsimp only
      exact lookupState_update_other p e.traceesPid _ e.states hp
  · have hinv := getNextEvent_ok_inv _ _ _ _ _ _ _ _ _ h
    obtain ⟨hpid, hown, -, ⟨st, hl, hsig⟩, hstates, -⟩ := hinv
    refine ⟨hpid, hown, ⟨st, hl, hsig, ?_⟩, fun p hp => ?_⟩
    · rw [hstates, lookupState_update_self, hl]
      rfl
    · rw [hstates]
      exact lookupState_update_other p e.nextPid _ e.states hp

/-- Witness for C5 at a concrete state: recording signal 5 for tracee 10
leaves its entry with pending signal 5. -/
theorem signal_deferred_delivery_witness :
    lookupState 10 ({ states := [(10, { pid := 10, signalToDeliver := 5 })],
                      processHier := [], nextPid := 10,
                      traceesPid := 10 } : execution).states
      = some { pid := 10, signalToDeliver := 5 } :=
  (signal_deferred_delivery.1 (execution.init 10) 5 _ { pid := 10 } rfl rfl).1
